import Mathlib

/-!
Shallow embedding of the form-submission pipeline of this repository:
the API boundary handler (api/submit-form.ts), the error classifier and
retry policy (src/lib/errorHandler.ts), the Google Sheets append client
retry loop (src/lib/googleSheets.ts), and the client submission flow
(src/hooks/useFormState.ts).  Strings are modelled over `List Char`;
JavaScript string helpers (trim, substring, includes, toLowerCase) are
embedded as executable functions on that representation.
-/

namespace FormPipeline

/-! ## JavaScript string primitives -/

/-- JS `String.prototype.toLowerCase` (ASCII-faithful). -/
def lowerStr (s : String) : String :=
  ⟨s.data.map Char.toLower⟩

/-- Does `s` start with the pattern `pat`? (helper for `includes`). -/
def startsWithL : List Char → List Char → Bool
  | [], _ => true
  | _ :: _, [] => false
  | a :: as, b :: bs => a == b && startsWithL as bs

/-- Does the pattern `pat` occur somewhere in `s`? (helper for `includes`). -/
def containsL (pat : List Char) : List Char → Bool
  | [] => startsWithL pat []
  | c :: rest => startsWithL pat (c :: rest) || containsL pat rest

/-- JS `s.includes(pat)`. -/
def strIncludes (s pat : String) : Bool :=
  containsL pat.data s.data

/-- JS `String.prototype.trim`. -/
def trimStr (s : String) : String :=
  ⟨((s.data.dropWhile Char.isWhitespace).reverse.dropWhile Char.isWhitespace).reverse⟩

/-- JS `s.substring(0, n)`. -/
def takeStr (n : Nat) (s : String) : String :=
  ⟨s.data.take n⟩

/-! ## Error classifier (src/lib/errorHandler.ts, class ErrorHandler) -/

/-- The eight error categories of the `ErrorCategory` union type. -/
inductive ErrorCategory where
  | authentication
  | network
  | rate_limit
  | validation
  | permission
  | quota
  | server
  | unknown
deriving DecidableEq, Repr

/-- A JavaScript `Error` as consumed by `classifyError`: its `name` and `message`. -/
structure JsError where
  name : String
  message : String
deriving DecidableEq, Repr

/-- Authentication keyword set of `classifyError` (`n`, `m` already lowercased). -/
def authKw (n m : String) : Bool :=
  strIncludes m "unauthorized" || strIncludes m "invalid_grant" ||
  strIncludes m "authentication" || strIncludes m "invalid credentials" ||
  strIncludes n "auth"

/-- Network keyword set of `classifyError`. -/
def networkKw (n m : String) : Bool :=
  strIncludes m "network" || strIncludes m "timeout" ||
  strIncludes m "connection" || strIncludes m "enotfound" ||
  strIncludes m "econnreset" || strIncludes n "network"

/-- Rate-limiting keyword set of `classifyError`. -/
def rateLimitKw (m : String) : Bool :=
  strIncludes m "rate limit" || strIncludes m "quota exceeded" ||
  strIncludes m "too many requests" || strIncludes m "429"

/-- Validation keyword set of `classifyError`. -/
def validationKw (m : String) : Bool :=
  strIncludes m "validation" || strIncludes m "invalid data" ||
  strIncludes m "bad request" || strIncludes m "400"

/-- Permission keyword set of `classifyError`. -/
def permissionKw (m : String) : Bool :=
  strIncludes m "permission" || strIncludes m "forbidden" ||
  strIncludes m "access denied" || strIncludes m "403"

/-- Quota keyword set of `classifyError`. -/
def quotaKw (m : String) : Bool :=
  strIncludes m "quota" || strIncludes m "limit exceeded" ||
  strIncludes m "usage limit"

/-- Server keyword set of `classifyError`. -/
def serverKw (m : String) : Bool :=
  strIncludes m "internal server error" || strIncludes m "service unavailable" ||
  strIncludes m "500" || strIncludes m "502" ||
  strIncludes m "503" || strIncludes m "504"

/-- `ErrorHandler.classifyError`: lowercases message and name, then tests the
keyword sets in source order and returns the first match, defaulting to `unknown`. -/
def classifyError (e : JsError) : ErrorCategory :=
  let m := lowerStr e.message
  let n := lowerStr e.name
  if authKw n m then .authentication
  else if networkKw n m then .network
  else if rateLimitKw m then .rate_limit
  else if validationKw m then .validation
  else if permissionKw m then .permission
  else if quotaKw m then .quota
  else if serverKw m then .server
  else .unknown

/-- `ErrorHandler.isRetryable`. -/
def isRetryable : ErrorCategory → Bool
  | .network => true
  | .rate_limit => true
  | .server => true
  | .quota => true
  | .authentication => false
  | .validation => false
  | .permission => false
  | .unknown => false

/-- `ErrorHandler.maxRetries` field (3). -/
def errorHandlerMaxRetries : Nat := 3

/-- `ErrorHandler.calculateRetryDelay`: base 1000 ms, 5000 ms for
`rate_limit`, doubled per attempt (`baseDelay * 2^(attemptNumber-1)`). -/
def calculateRetryDelay (attemptNumber : Nat) (category : ErrorCategory) : Nat :=
  let baseDelay := if category = .rate_limit then 5000 else 1000
  baseDelay * 2 ^ (attemptNumber - 1)

/-- Retry-relevant part of the `ErrorHandlingResult` returned by `handleError`. -/
structure ErrorHandlingResult where
  shouldRetry : Bool
  retryDelay : Option Nat
deriving DecidableEq, Repr

/-- `ErrorHandler.handleError`: classifies, decides retry
(`isRetryable && (attemptNumber || 1) < maxRetries`), and computes the delay. -/
def handleError (e : JsError) (attemptNumber : Nat) : ErrorHandlingResult :=
  let category := classifyError e
  let retryable := isRetryable category
  let an := if attemptNumber = 0 then 1 else attemptNumber
  let shouldRetry := retryable && decide (an < errorHandlerMaxRetries)
  { shouldRetry := shouldRetry
    retryDelay := if shouldRetry then some (calculateRetryDelay an category) else none }

/-! ## Submission payload and manual-recovery record -/

/-- The `FormSubmissionPayload` interface of src/types/googleSheets.ts. -/
structure FormSubmissionPayload where
  timestamp : String
  name : String
  contactMethods : List String
  email : Option String
  phone : Option String
  socialPlatforms : List String
  socialMediaHandle : String
  address : Option String
deriving DecidableEq, Repr

/-- The `recoveryData` object built by `ErrorHandler.logForManualRecovery`:
the fields of the submission it copies into the critical log entry. -/
structure RecoveryData where
  timestamp : String
  name : String
  contactMethods : List String
  email : Option String
  phone : Option String
  socialPlatforms : List String
  socialMediaHandle : String
deriving DecidableEq, Repr

/-- `ErrorHandler.logForManualRecovery`: the recovery record it emits for a payload. -/
def logForManualRecovery (formData : FormSubmissionPayload) : RecoveryData :=
  { timestamp := formData.timestamp
    name := formData.name
    contactMethods := formData.contactMethods
    email := formData.email
    phone := formData.phone
    socialPlatforms := formData.socialPlatforms
    socialMediaHandle := formData.socialMediaHandle }

/-! ## Sheets append client retry loop
(src/lib/googleSheets.ts, `GoogleSheetsServiceImpl.appendFormData`) -/

/-- Outcome of one remote `spreadsheets.values.append` attempt: a 200 response,
or a thrown/derived error (a non-200 status becomes
`Unexpected response status: ...` thrown into the same catch). -/
inductive AttemptResult where
  | ok
  | err (e : JsError)
deriving DecidableEq, Repr

/-- `maxRetries` constant of `appendFormData` (3). -/
def sheetsMaxRetries : Nat := 3

/-- The aggregate error message thrown after exhaustion. -/
def failMsg (lastMsg : String) : String :=
  "Failed to append data to Google Sheets after " ++ toString sheetsMaxRetries ++
    " attempts. Last error: " ++ lastMsg

/-- Observable trace of one `appendFormData` run: attempts performed, backoff
waits actually slept, number of `logForManualRecovery` calls, and whether the
call returned normally or threw the aggregate error. -/
structure AppendTrace where
  attempts : Nat
  waits : List Nat
  recoveryCount : Nat
  success : Bool
  thrownMsg : Option String
deriving DecidableEq, Repr

/-- The `for (let attempt = 1; attempt <= maxRetries; attempt++)` loop of
`appendFormData`, over the list of remaining attempt numbers.  On success it
returns; on error it consults `handleError`, breaks when
`attempt === maxRetries || !shouldRetry` (then logs for manual recovery once
and throws the aggregate error), else sleeps `retryDelay` and retries. -/
def appendGo (res : Nat → AttemptResult) :
    List Nat → List Nat → Option JsError → AppendTrace
  | [], waits, lastErr =>
      { attempts := sheetsMaxRetries
        waits := waits
        recoveryCount := if lastErr.isSome then 1 else 0
        success := false
        thrownMsg := some (failMsg (match lastErr with
          | some e => e.message
          | none => "undefined")) }
  | attempt :: rest, waits, _ =>
      match res attempt with
      | .ok =>
          { attempts := attempt, waits := waits, recoveryCount := 0,
            success := true, thrownMsg := none }
      | .err e =>
          let r := handleError e attempt
          if attempt == sheetsMaxRetries || !r.shouldRetry then
            { attempts := attempt, waits := waits, recoveryCount := 1,
              success := false, thrownMsg := some (failMsg e.message) }
          else
            match r.retryDelay with
            | some d => appendGo res rest (waits ++ [d]) (some e)
            | none => appendGo res rest waits (some e)

/-- `GoogleSheetsServiceImpl.appendFormData`, abstracted over the per-attempt
outcome of the remote append call. -/
def appendFormData (res : Nat → AttemptResult) : AppendTrace :=
  appendGo res [1, 2, 3] [] none

/-! ## API boundary handler (api/submit-form.ts) -/

/-- A JSON field value as the handler consumes it. Arrays are restricted to the
string arrays the payload shape carries. -/
inductive JVal where
  | jnull
  | jbool (b : Bool)
  | jnum (n : Int)
  | jstr (s : String)
  | jarrS (xs : List String)
deriving DecidableEq, Repr

/-- JS truthiness of a possibly-absent field (`none` = property absent / `undefined`). -/
def truthy : Option JVal → Bool
  | none => false
  | some .jnull => false
  | some (.jbool b) => b
  | some (.jnum n) => decide (n ≠ 0)
  | some (.jstr s) => decide (s ≠ "")
  | some (.jarrS _) => true

/-- `typeof v === 'string'`. -/
def isStr : Option JVal → Bool
  | some (.jstr _) => true
  | _ => false

/-- The string carried by a string field (unspecified elsewhere). -/
def asStr : Option JVal → String
  | some (.jstr s) => s
  | _ => ""

/-- The request body as an object with the eight fields the handler reads;
`none` in a field means the property is absent. -/
structure ReqBody where
  name : Option JVal
  contactMethods : Option JVal
  email : Option JVal
  phone : Option JVal
  socialPlatforms : Option JVal
  socialMediaHandle : Option JVal
  address : Option JVal
  turnstileToken : Option JVal
deriving DecidableEq, Repr

/-- Character class `[^\s@]` of the email regex. -/
def okEmailChar (c : Char) : Bool :=
  !c.isWhitespace && c != '@'

/-- Splits a character list at its first occurrence of `sep`; `none` if absent. -/
def splitFirst (sep : Char) : List Char → Option (List Char × List Char)
  | [] => none
  | c :: rest =>
      if c == sep then some ([], rest)
      else
        match splitFirst sep rest with
        | some (a, b) => some (c :: a, b)
        | none => none

/-- `isValidEmail`: the regex `^[^\s@]+@[^\s@]+\.[^\s@]+$` — a nonempty
`@`-free, whitespace-free local part, one `@`, and a domain part with a dot
that has nonempty text on both sides. -/
def isValidEmail (s : String) : Bool :=
  match splitFirst '@' s.data with
  | none => false
  | some (a, r) =>
      !a.isEmpty && a.all okEmailChar && !r.isEmpty && r.all okEmailChar &&
        ((r.drop 1).dropLast).contains '.'

/-- Required-string check of `validateFormData`
(`!x || typeof x !== 'string' || x.trim().length === 0` rejects). -/
def reqStringOk (v : Option JVal) : Bool :=
  truthy v && isStr v && decide (trimStr (asStr v) ≠ "")

/-- Required-array check (`Array.isArray(x) && x.length > 0`). -/
def arrayOk : Option JVal → Bool
  | some (.jarrS xs) => !xs.isEmpty
  | _ => false

/-- Optional-email check (`email && (typeof email !== 'string' || !isValidEmail(email.trim()))` rejects). -/
def optEmailOk (v : Option JVal) : Bool :=
  !truthy v || (isStr v && isValidEmail (trimStr (asStr v)))

/-- Optional-string check (`x && (typeof x !== 'string' || x.trim().length === 0)` rejects). -/
def optStringOk (v : Option JVal) : Bool :=
  !truthy v || (isStr v && decide (trimStr (asStr v) ≠ ""))

/-- `validateFormData` of api/submit-form.ts: the structural validation of the
request body (`none` = body null or not an object). -/
def validateFormData : Option ReqBody → Bool
  | none => false
  | some d =>
      reqStringOk d.name &&
      reqStringOk d.socialMediaHandle &&
      reqStringOk d.turnstileToken &&
      arrayOk d.contactMethods &&
      arrayOk d.socialPlatforms &&
      optEmailOk d.email &&
      optStringOk d.phone &&
      optStringOk d.address

/-- Sanitized payload produced by the api/submit-form.ts handler (its local
`FormSubmissionPayload` interface, which carries `turnstileToken`). -/
structure ApiPayload where
  timestamp : String
  name : String
  contactMethods : List String
  email : Option String
  phone : Option String
  socialPlatforms : List String
  socialMediaHandle : String
  address : Option String
  turnstileToken : String
deriving DecidableEq, Repr

/-- `x.trim().substring(0, cap)` on a required field; `none` models the
`TypeError` thrown when the field is not a string. -/
def sanStr (cap : Nat) : Option JVal → Option String
  | some (.jstr s) => some (takeStr cap (trimStr s))
  | _ => none

/-- `xs.map(x => x.trim().substring(0, cap))`; `none` models the `TypeError`
thrown when the field is not an array. -/
def sanArr (cap : Nat) : Option JVal → Option (List String)
  | some (.jarrS xs) => some (xs.map fun x => takeStr cap (trimStr x))
  | _ => none

/-- `x?.trim().substring(0, cap)` on an optional field: `undefined`/`null`
short-circuit to `undefined`; a non-string non-null value throws (`none`). -/
def sanOpt (cap : Nat) : Option JVal → Option (Option String)
  | none => some none
  | some .jnull => some none
  | some (.jstr s) => some (some (takeStr cap (trimStr s)))
  | some _ => none

/-- `turnstileToken.trim()` — trimmed, with no length cap. -/
def sanTok : Option JVal → Option String
  | some (.jstr s) => some (trimStr s)
  | _ => none

/-- `sanitizeFormData` of api/submit-form.ts: re-stamps the timestamp with the
current time `now` and trims/caps the fields (name 100, contact methods 50,
email 100, phone 20, platforms 50, handle 100, address 200; token trim only).
`none` models a thrown `TypeError` (caught by the handler's outer catch). -/
def sanitizeFormData (now : String) (d : ReqBody) : Option ApiPayload := do
  let name ← sanStr 100 d.name
  let methods ← sanArr 50 d.contactMethods
  let email ← sanOpt 100 d.email
  let phone ← sanOpt 20 d.phone
  let platforms ← sanArr 50 d.socialPlatforms
  let handle ← sanStr 100 d.socialMediaHandle
  let address ← sanOpt 200 d.address
  let token ← sanTok d.turnstileToken
  pure { timestamp := now, name := name, contactMethods := methods,
         email := email, phone := phone, socialPlatforms := platforms,
         socialMediaHandle := handle, address := address, turnstileToken := token }

/-- Request method as the handler distinguishes it. -/
inductive HttpMethod where
  | options
  | post
  | other
deriving DecidableEq, Repr

/-- Outcome of the `appendToGoogleSheets` call (returns `true`, returns
`false`, or throws into the inner catch). -/
inductive AppendOutcome where
  | ok
  | failed
  | threw
deriving DecidableEq, Repr

/-- Environment of one handler invocation: the rate limiter's verdict for the
client address, the Turnstile verification result (its own failures are caught
and yield `false`), whether the sheets credentials are configured, and the
append call's outcome. -/
structure HandlerEnv where
  rateLimitOk : Bool
  turnstileOk : Bool
  sheetsConfigured : Bool
  appendOutcome : AppendOutcome
deriving DecidableEq, Repr

/-- The HTTP response plus the payload passed to `appendToGoogleSheets`, when
that call was made (`success`/`message` are `none` for the bare `OPTIONS` 200). -/
structure HandlerResult where
  status : Nat
  success : Option Bool
  message : Option String
  appended : Option ApiPayload
deriving DecidableEq, Repr

/-- The success acknowledgment the handler always sends once past verification. -/
def okResponse (appended : Option ApiPayload) : HandlerResult :=
  { status := 200, success := some true,
    message := some "Form submitted successfully", appended := appended }

/-- The api/submit-form.ts `handler`: OPTIONS preflight, POST-only check, rate
limit, structural validation, sanitization, Turnstile verification, then the
best-effort sheets append; every failure from sanitization onward (including a
thrown exception, reaching the outer catch) still answers 200 success. -/
def handler (m : HttpMethod) (body : Option ReqBody) (env : HandlerEnv)
    (now : String) : HandlerResult :=
  match m with
  | .options => { status := 200, success := none, message := none, appended := none }
  | .other =>
      { status := 405, success := some false,
        message := some "Method not allowed", appended := none }
  | .post =>
      if !env.rateLimitOk then
        { status := 429, success := some false,
          message := some "Too many submissions. Please wait a moment and try again.",
          appended := none }
      else
        match body with
        | none =>
            { status := 400, success := some false,
              message := some "Invalid form data", appended := none }
        | some b =>
            if !validateFormData (some b) then
              { status := 400, success := some false,
                message := some "Invalid form data", appended := none }
            else
              match sanitizeFormData now b with
              | none => okResponse none
              | some p =>
                  if !env.turnstileOk then
                    { status := 400, success := some false,
                      message := some "Verification failed. Please try again.",
                      appended := none }
                  else if env.sheetsConfigured then
                    match env.appendOutcome with
                    | .ok => okResponse (some p)
                    | .failed => okResponse (some p)
                    | .threw => okResponse (some p)
                  else
                    okResponse none

/-! ## Client submission flow (src/hooks/useFormState.ts, `submitForm`) -/

/-- Outcome of the `fetch('/api/submit-form', ...)` call made by `submitForm`:
a success-shaped response, a non-ok HTTP status (thrown), a `success: false`
body (thrown), the 10-second abort, or a network error. -/
inductive FetchOutcome where
  | ok
  | httpError
  | notSuccess
  | aborted
  | netError
deriving DecidableEq, Repr

/-- Observable effects of one `submitForm` call: whether the POST was sent,
whether `clearProgress` removed the persisted draft, and the hook state
left by the `finally` block. -/
structure SubmitTrace where
  fetched : Bool
  clearedProgress : Bool
  isSubmitting : Bool
  isCompleted : Bool
deriving DecidableEq, Repr

/-- `useFormState.submitForm`, abstracted over the result of
`validateFormDataForSubmission(state.answers)` and of the fetch.  On
validation failure it sets `isSubmitting: false` and returns early — no fetch,
no `clearProgress` — but the `finally` block still runs and sets
`isSubmitting: false, isCompleted: true`.  After a fetch, every outcome
(success or any thrown error, caught by the inner catch) calls
`clearProgress`, and the `finally` block completes the form. -/
def submitForm (validates : Bool) (fetch : FetchOutcome) : SubmitTrace :=
  if !validates then
    { fetched := false, clearedProgress := false,
      isSubmitting := false, isCompleted := true }
  else
    match fetch with
    | .ok =>
        { fetched := true, clearedProgress := true,
          isSubmitting := false, isCompleted := true }
    | .httpError =>
        { fetched := true, clearedProgress := true,
          isSubmitting := false, isCompleted := true }
    | .notSuccess =>
        { fetched := true, clearedProgress := true,
          isSubmitting := false, isCompleted := true }
    | .aborted =>
        { fetched := true, clearedProgress := true,
          isSubmitting := false, isCompleted := true }
    | .netError =>
        { fetched := true, clearedProgress := true,
          isSubmitting := false, isCompleted := true }

/-! ## Concrete probe inputs -/

/-- Attempt results used to exercise the retry-until-exhaustion path: every
attempt fails with a network-classified timeout error. -/
def resC3 : Nat → AttemptResult := fun _ => .err ⟨"Error", "Request timeout"⟩

/-- Attempt results whose first attempt fails with an authentication error. -/
def resC4 : Nat → AttemptResult := fun _ => .err ⟨"Error", "unauthorized"⟩

/-- Attempt results failing twice with a network error, then succeeding. -/
def resC5 : Nat → AttemptResult :=
  fun k => if k = 3 then .ok else .err ⟨"Error", "econnreset"⟩

/-- The 501 probe error: its message contains "501" and matches no keyword set. -/
def e501 : JsError := ⟨"Error", "HTTP 501"⟩

/-- A payload carrying an address, as submitted for manual recovery. -/
def payloadWithAddress : FormSubmissionPayload :=
  { timestamp := "2024-01-01T00:00:00.000Z", name := "Test User",
    contactMethods := ["email"], email := some "test@example.com",
    phone := none, socialPlatforms := ["instagram"],
    socialMediaHandle := "@testuser",
    address := some "123 Main St, Anytown, NY 12345" }

/-- The same payload with no address. -/
def payloadSansAddress : FormSubmissionPayload :=
  { timestamp := "2024-01-01T00:00:00.000Z", name := "Test User",
    contactMethods := ["email"], email := some "test@example.com",
    phone := none, socialPlatforms := ["instagram"],
    socialMediaHandle := "@testuser", address := none }

/-- The ordered category/matcher table of the spec's priority reading. -/
def categoryChecks (n m : String) : List (Bool × ErrorCategory) :=
  [(authKw n m, .authentication),
   (networkKw n m, .network),
   (rateLimitKw m, .rate_limit),
   (validationKw m, .validation),
   (permissionKw m, .permission),
   (quotaKw m, .quota),
   (serverKw m, .server)]

/-- Specification-order classifier: the first category in the priority list
(authentication, network, rate_limit, validation, permission, quota, server)
whose keyword set matches, defaulting to `unknown`. -/
def classifySpecOrder (e : JsError) : ErrorCategory :=
  let m := lowerStr e.message
  let n := lowerStr e.name
  match (categoryChecks n m).find? (fun pr => pr.1) with
  | some pr => pr.2
  | none => .unknown

/-- A structurally valid request body (all required fields present, email
well-formed). -/
def cBodyC1 : ReqBody :=
  { name := some (.jstr "John Doe"), contactMethods := some (.jarrS ["email"]),
    email := some (.jstr "john@example.com"), phone := none,
    socialPlatforms := some (.jarrS ["instagram"]),
    socialMediaHandle := some (.jstr "@johndoe"), address := none,
    turnstileToken := some (.jstr "tok123") }

/-- Environment in which the Turnstile verification fails. -/
def envTurnstileFail : HandlerEnv :=
  { rateLimitOk := true, turnstileOk := false, sheetsConfigured := true,
    appendOutcome := .ok }

/-- Environment in which everything downstream succeeds. -/
def envAllOk : HandlerEnv :=
  { rateLimitOk := true, turnstileOk := true, sheetsConfigured := true,
    appendOutcome := .ok }

/-- A body declaring the "email" contact method with no email value at all. -/
def cBodyC2 : ReqBody :=
  { name := some (.jstr "John"), contactMethods := some (.jarrS ["email"]),
    email := none, phone := none,
    socialPlatforms := some (.jarrS ["instagram"]),
    socialMediaHandle := some (.jstr "@john"), address := none,
    turnstileToken := some (.jstr "tok") }

/-- Environment for the C2 probe: all gates open. -/
def envC2 : HandlerEnv :=
  { rateLimitOk := true, turnstileOk := true, sheetsConfigured := true,
    appendOutcome := .ok }

/-- The payload the handler passes to the append call for `cBodyC2`. -/
def pC2 : ApiPayload :=
  { timestamp := "T2", name := "John", contactMethods := ["email"],
    email := none, phone := none, socialPlatforms := ["instagram"],
    socialMediaHandle := "@john", address := none, turnstileToken := "tok" }

/-- A structurally valid body whose turnstileToken has 250 characters. -/
def cBodyC8 : ReqBody :=
  { name := some (.jstr "John"), contactMethods := some (.jarrS ["email"]),
    email := none, phone := none,
    socialPlatforms := some (.jarrS ["instagram"]),
    socialMediaHandle := some (.jstr "@john"), address := none,
    turnstileToken := some (.jstr ⟨List.replicate 250 'a'⟩) }

/-- The sanitized payload for `cBodyC8`: the token keeps all 250 characters. -/
def pC8 : ApiPayload :=
  { timestamp := "T8", name := "John", contactMethods := ["email"],
    email := none, phone := none, socialPlatforms := ["instagram"],
    socialMediaHandle := "@john", address := none,
    turnstileToken := ⟨List.replicate 250 'a'⟩ }

/-- Body used to witness the sanitizer characterization. -/
def cBodyC8w : ReqBody :=
  { name := some (.jstr "  Jane Roe  "), contactMethods := some (.jarrS [" email "]),
    email := some (.jstr " jane@example.com "), phone := none,
    socialPlatforms := some (.jarrS ["tiktok"]),
    socialMediaHandle := some (.jstr " @jane "), address := none,
    turnstileToken := some (.jstr " tok8 ") }

/-- Sanitized payload for `cBodyC8w`. -/
def pC8w : ApiPayload :=
  { timestamp := "T8w", name := "Jane Roe", contactMethods := ["email"],
    email := some "jane@example.com", phone := none,
    socialPlatforms := ["tiktok"], socialMediaHandle := "@jane",
    address := none, turnstileToken := "tok8" }

/-! ## Helper lemmas -/

lemma startsWithL_of_append (a b s : List Char)
    (h : startsWithL (a ++ b) s = true) : startsWithL a s = true := by
  induction a generalizing s with
  | nil => rfl
  | cons c cs ih =>
      cases s with
      | nil => simp [startsWithL] at h
      | cons d ds =>
          simp only [List.cons_append, startsWithL, Bool.and_eq_true] at h ⊢
          exact ⟨h.1, ih ds h.2⟩

lemma containsL_of_append (a b s : List Char)
    (h : containsL (a ++ b) s = true) : containsL a s = true := by
  induction s with
  | nil =>
      cases a with
      | nil => rfl
      | cons c cs => simp [containsL, startsWithL] at h
  | cons c rest ih =>
      simp only [containsL, Bool.or_eq_true] at h ⊢
      rcases h with h | h
      · exact Or.inl (startsWithL_of_append _ _ _ h)
      · exact Or.inr (ih h)

lemma strIncludes_quota_of_quota_exceeded (m : String)
    (h : strIncludes m "quota exceeded" = true) : strIncludes m "quota" = true := by
  have hsplit : ("quota exceeded" : String).data =
      ("quota" : String).data ++ (" exceeded" : String).data := by decide
  have h2 : containsL (("quota" : String).data ++ (" exceeded" : String).data)
      m.data = true := by
    simpa [strIncludes, hsplit] using h
  simpa [strIncludes] using containsL_of_append _ _ _ h2

lemma takeStr_length_le (n : Nat) (s : String) : (takeStr n s).length ≤ n := by
  simp only [takeStr, String.length, List.length_take]
  exact Nat.min_le_left _ _

lemma sanStr_eq_some (cap : Nat) (v : Option JVal) (out : String)
    (h : sanStr cap v = some out) :
    ∃ s, v = some (.jstr s) ∧ out = takeStr cap (trimStr s) := by
  cases v with
  | none => simp [sanStr] at h
  | some w =>
      cases w with
      | jstr s => exact ⟨s, rfl, by simpa [sanStr] using h.symm⟩
      | jnull => simp [sanStr] at h
      | jbool b => simp [sanStr] at h
      | jnum n => simp [sanStr] at h
      | jarrS xs => simp [sanStr] at h

lemma sanArr_eq_some (cap : Nat) (v : Option JVal) (out : List String)
    (h : sanArr cap v = some out) :
    ∃ xs, v = some (.jarrS xs) ∧ out = xs.map fun x => takeStr cap (trimStr x) := by
  cases v with
  | none => simp [sanArr] at h
  | some w =>
      cases w with
      | jarrS xs => exact ⟨xs, rfl, by simpa [sanArr] using h.symm⟩
      | jnull => simp [sanArr] at h
      | jbool b => simp [sanArr] at h
      | jnum n => simp [sanArr] at h
      | jstr s => simp [sanArr] at h

lemma sanOpt_eq_some (cap : Nat) (v : Option JVal) (out : Option String)
    (h : sanOpt cap v = some out) :
    out = none ∨ ∃ s, v = some (.jstr s) ∧ out = some (takeStr cap (trimStr s)) := by
  cases v with
  | none => exact Or.inl (by simpa [sanOpt] using h.symm)
  | some w =>
      cases w with
      | jnull => exact Or.inl (by simpa [sanOpt] using h.symm)
      | jstr s => exact Or.inr ⟨s, rfl, by simpa [sanOpt] using h.symm⟩
      | jbool b => simp [sanOpt] at h
      | jnum n => simp [sanOpt] at h
      | jarrS xs => simp [sanOpt] at h

lemma sanTok_eq_some (v : Option JVal) (out : String)
    (h : sanTok v = some out) :
    ∃ s, v = some (.jstr s) ∧ out = trimStr s := by
  cases v with
  | none => simp [sanTok] at h
  | some w =>
      cases w with
      | jstr s => exact ⟨s, rfl, by simpa [sanTok] using h.symm⟩
      | jnull => simp [sanTok] at h
      | jbool b => simp [sanTok] at h
      | jnum n => simp [sanTok] at h
      | jarrS xs => simp [sanTok] at h

/-! ## Claim theorems -/

/-- C3: for attempt outcomes failing on all three attempts with errors the
classifier marks retryable, `appendFormData` performs exactly 3 attempts,
produces the manual-recovery log entry exactly once, and throws the aggregate
error naming the last error's message. -/
theorem appendFormData_retryable_exhaustion
    (res : Nat → AttemptResult) (e1 e2 e3 : JsError)
    (h1 : res 1 = .err e1) (h2 : res 2 = .err e2) (h3 : res 3 = .err e3)
    (hr1 : isRetryable (classifyError e1) = true)
    (hr2 : isRetryable (classifyError e2) = true)
    (hr3 : isRetryable (classifyError e3) = true) :
    (appendFormData res).attempts = 3 ∧
    (appendFormData res).recoveryCount = 1 ∧
    (appendFormData res).success = false ∧
    (appendFormData res).thrownMsg = some (failMsg e3.message) := by
  simp [appendFormData, appendGo, h1, h2, h3, handleError, hr1, hr2, hr3,
    errorHandlerMaxRetries, sheetsMaxRetries]

/-- Witness for C3 at the concrete always-timeout attempt results. -/
theorem appendFormData_retryable_exhaustion_witness :
    (appendFormData resC3).attempts = 3 ∧
    (appendFormData resC3).recoveryCount = 1 ∧
    (appendFormData resC3).success = false ∧
    (appendFormData resC3).thrownMsg = some (failMsg "Request timeout") := by
  have h := appendFormData_retryable_exhaustion resC3
    ⟨"Error", "Request timeout"⟩ ⟨"Error", "Request timeout"⟩
    ⟨"Error", "Request timeout"⟩ rfl rfl rfl (by decide) (by decide) (by decide)
  simpa using h

/-- C4: for a first-attempt error the classifier marks non-retryable,
`appendFormData` performs exactly 1 attempt, sleeps no backoff delay, and
throws. -/
theorem appendFormData_nonretryable_single_attempt
    (res : Nat → AttemptResult) (e : JsError)
    (h1 : res 1 = .err e)
    (hnr : isRetryable (classifyError e) = false) :
    (appendFormData res).attempts = 1 ∧
    (appendFormData res).waits = [] ∧
    (appendFormData res).success = false ∧
    (appendFormData res).thrownMsg = some (failMsg e.message) := by
  simp [appendFormData, appendGo, h1, handleError, hnr,
    errorHandlerMaxRetries, sheetsMaxRetries]

/-- Witness for C4 at the concrete unauthorized attempt results. -/
theorem appendFormData_nonretryable_single_attempt_witness :
    (appendFormData resC4).attempts = 1 ∧
    (appendFormData resC4).waits = [] ∧
    (appendFormData resC4).success = false ∧
    (appendFormData resC4).thrownMsg = some (failMsg "unauthorized") := by
  have h := appendFormData_nonretryable_single_attempt resC4
    ⟨"Error", "unauthorized"⟩ rfl (by decide)
  simpa using h

/-- C5: the retry delay is `base * 2^(n-1)` with base 1000 ms for every
category except `rate_limit` (base 5000 ms); and when the append call fails
twice with network-classified errors and succeeds on the third attempt,
`appendFormData` returns without throwing after exactly two waits of 1000 ms
and 2000 ms. -/
theorem calculateRetryDelay_backoff_and_network_scenario
    (n : Nat) (c : ErrorCategory) (res : Nat → AttemptResult) (e1 e2 : JsError)
    (_hn : 1 ≤ n)
    (h1 : res 1 = .err e1) (h2 : res 2 = .err e2) (h3 : res 3 = .ok)
    (hc1 : classifyError e1 = .network) (hc2 : classifyError e2 = .network) :
    calculateRetryDelay n c =
      (if c = .rate_limit then 5000 else 1000) * 2 ^ (n - 1) ∧
    (appendFormData res).success = true ∧
    (appendFormData res).thrownMsg = none ∧
    (appendFormData res).waits = [1000, 2000] ∧
    (appendFormData res).attempts = 3 := by
  refine ⟨rfl, ?_⟩
  simp [appendFormData, appendGo, h1, h2, h3, handleError, hc1, hc2,
    calculateRetryDelay, isRetryable, errorHandlerMaxRetries, sheetsMaxRetries]

/-- Witness for C5: rate-limit delay at attempt 1 is 5000 ms, and the
network-failure-twice scenario at concrete attempt results. -/
theorem calculateRetryDelay_backoff_and_network_scenario_witness :
    calculateRetryDelay 1 .rate_limit = 5000 ∧
    (appendFormData resC5).success = true ∧
    (appendFormData resC5).thrownMsg = none ∧
    (appendFormData resC5).waits = [1000, 2000] ∧
    (appendFormData resC5).attempts = 3 := by
  have h := calculateRetryDelay_backoff_and_network_scenario 1 .rate_limit resC5
    ⟨"Error", "econnreset"⟩ ⟨"Error", "econnreset"⟩
    (by decide) rfl rfl rfl (by decide) (by decide)
  exact ⟨by simpa using h.1, h.2⟩

/-- C6 counterexample: an error whose message contains the status-code
substring "501" and matches no earlier category's keywords is classified
`unknown`, not `server` — "501" is missing from the server keyword set. -/
theorem classifyError_501_not_server :
    strIncludes (lowerStr e501.message) "501" = true ∧
    authKw (lowerStr e501.name) (lowerStr e501.message) = false ∧
    networkKw (lowerStr e501.name) (lowerStr e501.message) = false ∧
    rateLimitKw (lowerStr e501.message) = false ∧
    validationKw (lowerStr e501.message) = false ∧
    permissionKw (lowerStr e501.message) = false ∧
    quotaKw (lowerStr e501.message) = false ∧
    classifyError e501 = .unknown ∧
    classifyError e501 ≠ .server := by
  decide

/-- C6 as amended: the server keyword set is "internal server error",
"service unavailable", "500", "502", "503", "504" (no "501"); an error
matching it and no earlier category's keywords is classified `server`, and an
error matching no keyword set at all is classified `unknown`. -/
theorem classifyError_server_and_unknown (e : JsError)
    (hA : authKw (lowerStr e.name) (lowerStr e.message) = false)
    (hN : networkKw (lowerStr e.name) (lowerStr e.message) = false)
    (hR : rateLimitKw (lowerStr e.message) = false)
    (hV : validationKw (lowerStr e.message) = false)
    (hP : permissionKw (lowerStr e.message) = false)
    (hQ : quotaKw (lowerStr e.message) = false) :
    (serverKw (lowerStr e.message) = true → classifyError e = .server) ∧
    (serverKw (lowerStr e.message) = false → classifyError e = .unknown) := by
  constructor <;> intro hS <;> simp [classifyError, hA, hN, hR, hV, hP, hQ, hS]

/-- Witness for C6 (amended) at a "service unavailable (503)" error and at a
keyword-free error. -/
theorem classifyError_server_and_unknown_witness :
    classifyError ⟨"Error", "service unavailable (503)"⟩ = .server ∧
    classifyError ⟨"Error", "mysterious failure"⟩ = .unknown := by
  refine ⟨?_, ?_⟩
  · exact (classifyError_server_and_unknown ⟨"Error", "service unavailable (503)"⟩
      (by decide) (by decide) (by decide) (by decide) (by decide) (by decide)).1
      (by decide)
  · exact (classifyError_server_and_unknown ⟨"Error", "mysterious failure"⟩
      (by decide) (by decide) (by decide) (by decide) (by decide) (by decide)).2
      (by decide)

/-- C7: the manual-recovery record drops the `address` field — two payloads
that differ only in their address produce identical recovery records, so the
record does not contain the full payload. -/
theorem logForManualRecovery_drops_address :
    logForManualRecovery payloadWithAddress = logForManualRecovery payloadSansAddress ∧
    payloadWithAddress.address ≠ payloadSansAddress.address := by
  decide

/-- C9 counterexample: a message containing "quota exceeded" that also matches
an earlier (network) keyword is classified `network`, not `rate_limit` — the
"in particular" clause does not hold for every message containing
"quota exceeded". -/
theorem classifyError_quota_exceeded_network_override :
    strIncludes (lowerStr ("econnreset while reporting quota exceeded" : String))
      "quota exceeded" = true ∧
    classifyError ⟨"Error", "econnreset while reporting quota exceeded"⟩ = .network ∧
    classifyError ⟨"Error", "econnreset while reporting quota exceeded"⟩ ≠ .rate_limit := by
  decide

/-- C9 as amended: `classifyError` returns the first matching category in the
fixed priority order (authentication, network, rate_limit, validation,
permission, quota, server); every message containing "quota exceeded" that
matches no authentication or network keyword is classified `rate_limit`
even though the quota keyword set also matches; and the `rate_limit` retry
delay uses the 5000 ms base. -/
theorem classifyError_priority_order (e : JsError) (k : Nat) :
    classifyError e = classifySpecOrder e ∧
    (strIncludes (lowerStr e.message) "quota exceeded" = true →
      authKw (lowerStr e.name) (lowerStr e.message) = false →
      networkKw (lowerStr e.name) (lowerStr e.message) = false →
      classifyError e = .rate_limit ∧ quotaKw (lowerStr e.message) = true) ∧
    calculateRetryDelay k .rate_limit = 5000 * 2 ^ (k - 1) := by
  refine ⟨?_, ?_, rfl⟩
  · cases hA : authKw (lowerStr e.name) (lowerStr e.message) <;>
    cases hN : networkKw (lowerStr e.name) (lowerStr e.message) <;>
    cases hR : rateLimitKw (lowerStr e.message) <;>
    cases hV : validationKw (lowerStr e.message) <;>
    cases hP : permissionKw (lowerStr e.message) <;>
    cases hQ : quotaKw (lowerStr e.message) <;>
    cases hS : serverKw (lowerStr e.message) <;>
    simp [classifyError, classifySpecOrder, categoryChecks, List.find?,
      hA, hN, hR, hV, hP, hQ, hS]
  · intro hq hA hN
    have hR : rateLimitKw (lowerStr e.message) = true := by
      simp [rateLimitKw, hq]
    have hQ : quotaKw (lowerStr e.message) = true := by
      simp [quotaKw, strIncludes_quota_of_quota_exceeded _ hq]
    exact ⟨by simp [classifyError, hA, hN, hR], hQ⟩

/-- Witness for C9 (amended) at the bare "quota exceeded" message. -/
theorem classifyError_priority_order_witness :
    classifyError ⟨"Error", "quota exceeded"⟩ =
      classifySpecOrder ⟨"Error", "quota exceeded"⟩ ∧
    classifyError ⟨"Error", "quota exceeded"⟩ = .rate_limit ∧
    quotaKw (lowerStr ("quota exceeded" : String)) = true ∧
    calculateRetryDelay 3 .rate_limit = 20000 := by
  have h := classifyError_priority_order ⟨"Error", "quota exceeded"⟩ 3
  have h2 := h.2.1 (by decide) (by decide) (by decide)
  exact ⟨h.1, h2.1, h2.2, by simpa using h.2.2⟩

/-- C10: when local validation fails, `submitForm` sends no POST and does not
clear the persisted draft, yet its `finally` block still leaves the form state
with `isCompleted = true` and `isSubmitting = false`. -/
theorem submitForm_validation_failure (fetch : FetchOutcome) :
    submitForm false fetch =
      { fetched := false, clearedProgress := false,
        isSubmitting := false, isCompleted := true } := by
  cases fetch <;> rfl

/-- C1 counterexample: a POST whose body passes structural validation but whose
Turnstile verification fails receives 400 `success:false`, not the success
acknowledgment — so structural-validation failures and non-POST methods are
not the only sources of a non-success response. -/
theorem handler_verification_failure_rejects_valid_body :
    validateFormData (some cBodyC1) = true ∧
    (handler .post (some cBodyC1) envTurnstileFail "T1").status = 400 ∧
    (handler .post (some cBodyC1) envTurnstileFail "T1").success = some false ∧
    (handler .post (some cBodyC1) envTurnstileFail "T1").message =
      some "Verification failed. Please try again." := by
  decide

/-- C1 as amended: once a POST's body passes structural validation, the rate
limiter admits the request and the Turnstile verification succeeds, the
handler responds 200 `{success:true, message:"Form submitted successfully"}`
regardless of sheets configuration, append outcome, or exceptions in the
append phase; and a non-success response arises only from a non-POST method,
the rate limiter, structural validation failure, or Turnstile verification
failure. -/
theorem handler_success_contract (m : HttpMethod) (body : Option ReqBody)
    (env : HandlerEnv) (now : String) :
    ((m = .post ∧ env.rateLimitOk = true ∧ validateFormData body = true ∧
        env.turnstileOk = true) →
      (handler m body env now).status = 200 ∧
      (handler m body env now).success = some true ∧
      (handler m body env now).message = some "Form submitted successfully") ∧
    ((handler m body env now).success = some false →
      m = .other ∨ env.rateLimitOk = false ∨ validateFormData body = false ∨
        env.turnstileOk = false) := by
  constructor
  · rintro ⟨hm, hr, hv, ht⟩
    subst hm
    cases body with
    | none => simp [validateFormData] at hv
    | some b =>
        cases hs : sanitizeFormData now b <;>
        cases hc : env.sheetsConfigured <;>
        cases ho : env.appendOutcome <;>
        simp [handler, hr, hv, ht, hs, hc, ho, okResponse]
  · intro hfail
    cases m with
    | options => simp [handler] at hfail
    | other => exact Or.inl rfl
    | post =>
        cases hr : env.rateLimitOk with
        | false => exact Or.inr (Or.inl rfl)
        | true =>
            cases body with
            | none => exact Or.inr (Or.inr (Or.inl rfl))
            | some b =>
                cases hv : validateFormData (some b) with
                | false => exact Or.inr (Or.inr (Or.inl rfl))
                | true =>
                    cases ht : env.turnstileOk with
                    | false => exact Or.inr (Or.inr (Or.inr rfl))
                    | true =>
                        exfalso
                        cases hs : sanitizeFormData now b <;>
                        cases hc : env.sheetsConfigured <;>
                        cases ho : env.appendOutcome <;>
                        simp [handler, hr, hv, ht, hs, hc, ho, okResponse] at hfail

/-- Witness for C1 (amended): the all-good environment yields the success
acknowledgment, and the Turnstile-failure response implicates one of the four
admitted gates. -/
theorem handler_success_contract_witness :
    ((handler .post (some cBodyC1) envAllOk "T1").status = 200 ∧
     (handler .post (some cBodyC1) envAllOk "T1").success = some true ∧
     (handler .post (some cBodyC1) envAllOk "T1").message =
       some "Form submitted successfully") ∧
    (HttpMethod.post = .other ∨ envTurnstileFail.rateLimitOk = false ∨
      validateFormData (some cBodyC1) = false ∨
      envTurnstileFail.turnstileOk = false) := by
  refine ⟨?_, ?_⟩
  · exact (handler_success_contract .post (some cBodyC1) envAllOk "T1").1
      ⟨rfl, rfl, by decide, rfl⟩
  · exact (handler_success_contract .post (some cBodyC1) envTurnstileFail "T1").2
      (by decide)

/-- C2 counterexample: a payload whose `contactMethods` contains "email" but
whose email field is absent passes `validateFormData` and is handed to the
spreadsheet append step — the cross-field method-to-value check is not
enforced at the API boundary. -/
theorem handler_appends_method_without_value :
    validateFormData (some cBodyC2) = true ∧
    cBodyC2.contactMethods = some (.jarrS ["email"]) ∧
    cBodyC2.email = none ∧
    (handler .post (some cBodyC2) envC2 "T2").appended = some pC2 ∧
    pC2.email = none := by
  decide

/-- C2 as amended: every payload passed to the append call is the sanitized
form of a body that passed the handler's structural validation (required
fields present and non-blank, non-empty method and platform arrays, email
format checked only when a non-blank email is present) — but not the
cross-field method-to-value checks. -/
theorem appended_payload_passed_validation (m : HttpMethod)
    (body : Option ReqBody) (env : HandlerEnv) (now : String) (p : ApiPayload)
    (h : (handler m body env now).appended = some p) :
    ∃ b, body = some b ∧ validateFormData (some b) = true ∧
      sanitizeFormData now b = some p := by
  cases m with
  | options => simp [handler] at h
  | other => simp [handler] at h
  | post =>
      cases hr : env.rateLimitOk with
      | false => simp [handler, hr] at h
      | true =>
          cases body with
          | none => simp [handler, hr] at h
          | some b =>
              cases hv : validateFormData (some b) with
              | false => simp [handler, hr, hv] at h
              | true =>
                  cases hs : sanitizeFormData now b with
                  | none => simp [handler, hr, hv, hs, okResponse] at h
                  | some q =>
                      cases ht : env.turnstileOk with
                      | false => simp [handler, hr, hv, hs, ht] at h
                      | true =>
                          cases hc : env.sheetsConfigured with
                          | false =>
                              simp [handler, hr, hv, hs, ht, hc, okResponse] at h
                          | true =>
                              cases ho : env.appendOutcome <;>
                                simp [handler, hr, hv, hs, ht, hc, ho,
                                  okResponse] at h <;>
                                exact ⟨b, rfl, hv, by rw [hs, h]⟩

/-- Witness for C2 (amended) at the concrete method-without-value body. -/
theorem appended_payload_passed_validation_witness :
    validateFormData (some cBodyC2) = true ∧
    sanitizeFormData "T2" cBodyC2 = some pC2 := by
  obtain ⟨b, hb, hv, hs⟩ := appended_payload_passed_validation .post
    (some cBodyC2) envC2 "T2" pC2 (by decide)
  injection hb with hb
  subst hb
  exact ⟨hv, hs⟩

set_option maxRecDepth 8000 in
/-- C8 counterexample: `sanitizeFormData` does not length-cap
`turnstileToken` — a structurally valid body with a 250-character token
sanitizes to a payload whose token still has 250 characters, longer than
every cap the function applies (the largest is 200). -/
theorem sanitizeFormData_token_not_capped :
    validateFormData (some cBodyC8) = true ∧
    sanitizeFormData "T8" cBodyC8 = some pC8 ∧
    pC8.turnstileToken.length = 250 ∧
    200 < pC8.turnstileToken.length := by
  decide

/-- C8 as amended: a sanitized payload re-stamps its timestamp with the
sanitization-time clock rather than the request, trims every string field, and
length-caps every string field except `turnstileToken` (name 100, each contact
method 50, email 100, phone 20, each social platform 50, handle 100, address
200); `turnstileToken` is only trimmed. -/
theorem sanitizeFormData_spec (now : String) (b : ReqBody) (p : ApiPayload)
    (h : sanitizeFormData now b = some p) :
    p.timestamp = now ∧
    (∀ s, b.name = some (.jstr s) → p.name = takeStr 100 (trimStr s)) ∧
    (∀ xs, b.contactMethods = some (.jarrS xs) →
      p.contactMethods = xs.map fun x => takeStr 50 (trimStr x)) ∧
    (∀ s, b.email = some (.jstr s) → p.email = some (takeStr 100 (trimStr s))) ∧
    (∀ s, b.phone = some (.jstr s) → p.phone = some (takeStr 20 (trimStr s))) ∧
    (∀ xs, b.socialPlatforms = some (.jarrS xs) →
      p.socialPlatforms = xs.map fun x => takeStr 50 (trimStr x)) ∧
    (∀ s, b.socialMediaHandle = some (.jstr s) →
      p.socialMediaHandle = takeStr 100 (trimStr s)) ∧
    (∀ s, b.address = some (.jstr s) → p.address = some (takeStr 200 (trimStr s))) ∧
    (∀ s, b.turnstileToken = some (.jstr s) → p.turnstileToken = trimStr s) ∧
    p.name.length ≤ 100 ∧
    (∀ s, s ∈ p.contactMethods → s.length ≤ 50) ∧
    (∀ s, p.email = some s → s.length ≤ 100) ∧
    (∀ s, p.phone = some s → s.length ≤ 20) ∧
    (∀ s, s ∈ p.socialPlatforms → s.length ≤ 50) ∧
    p.socialMediaHandle.length ≤ 100 ∧
    (∀ s, p.address = some s → s.length ≤ 200) := by
  rcases hname : sanStr 100 b.name with _ | name
  · simp [sanitizeFormData, hname] at h
  rcases hcm : sanArr 50 b.contactMethods with _ | methods
  · simp [sanitizeFormData, hname, hcm] at h
  rcases hem : sanOpt 100 b.email with _ | email
  · simp [sanitizeFormData, hname, hcm, hem] at h
  rcases hph : sanOpt 20 b.phone with _ | phone
  · simp [sanitizeFormData, hname, hcm, hem, hph] at h
  rcases hsp : sanArr 50 b.socialPlatforms with _ | platforms
  · simp [sanitizeFormData, hname, hcm, hem, hph, hsp] at h
  rcases hh : sanStr 100 b.socialMediaHandle with _ | handle
  · simp [sanitizeFormData, hname, hcm, hem, hph, hsp, hh] at h
  rcases had : sanOpt 200 b.address with _ | address
  · simp [sanitizeFormData, hname, hcm, hem, hph, hsp, hh, had] at h
  rcases htok : sanTok b.turnstileToken with _ | token
  · simp [sanitizeFormData, hname, hcm, hem, hph, hsp, hh, had, htok] at h
  have hp : p = ApiPayload.mk now name methods email phone platforms handle
      address token := by
    simpa [sanitizeFormData, hname, hcm, hem, hph, hsp, hh, had, htok]
      using h.symm
  obtain ⟨sn, hsn, hne⟩ := sanStr_eq_some _ _ _ hname
  obtain ⟨xsc, hxsc, hce⟩ := sanArr_eq_some _ _ _ hcm
  obtain ⟨xsp, hxsp, hpe⟩ := sanArr_eq_some _ _ _ hsp
  obtain ⟨sh, hsh, hhe⟩ := sanStr_eq_some _ _ _ hh
  obtain ⟨st, hst, hte⟩ := sanTok_eq_some _ _ htok
  subst hp
  refine ⟨rfl, ?_, ?_, ?_, ?_, ?_, ?_, ?_, ?_, ?_, ?_, ?_, ?_, ?_, ?_, ?_⟩
  · intro s hs
    rw [hs] at hname
    simpa [sanStr] using hname.symm
  · intro xs hxs
    rw [hxs] at hcm
    simpa [sanArr] using hcm.symm
  · intro s hs
    rw [hs] at hem
    simpa [sanOpt] using hem.symm
  · intro s hs
    rw [hs] at hph
    simpa [sanOpt] using hph.symm
  · intro xs hxs
    rw [hxs] at hsp
    simpa [sanArr] using hsp.symm
  · intro s hs
    rw [hs] at hh
    simpa [sanStr] using hh.symm
  · intro s hs
    rw [hs] at had
    simpa [sanOpt] using had.symm
  · intro s hs
    rw [hs] at htok
    simpa [sanTok] using htok.symm
  · rw [hne]
    exact takeStr_length_le _ _
  · intro s hs
    rw [hce] at hs
    simp only [List.mem_map] at hs
    obtain ⟨x, _, rfl⟩ := hs
    exact takeStr_length_le _ _
  · intro s hs
    rcases sanOpt_eq_some _ _ _ hem with he | ⟨se, _, he⟩
    · rw [he] at hs; cases hs
    · rw [he] at hs
      injection hs with hs
      rw [← hs]
      exact takeStr_length_le _ _
  · intro s hs
    rcases sanOpt_eq_some _ _ _ hph with he | ⟨se, _, he⟩
    · rw [he] at hs; cases hs
    · rw [he] at hs
      injection hs with hs
      rw [← hs]
      exact takeStr_length_le _ _
  · intro s hs
    rw [hpe] at hs
    simp only [List.mem_map] at hs
    obtain ⟨x, _, rfl⟩ := hs
    exact takeStr_length_le _ _
  · rw [hhe]
    exact takeStr_length_le _ _
  · intro s hs
    rcases sanOpt_eq_some _ _ _ had with he | ⟨se, _, he⟩
    · rw [he] at hs; cases hs
    · rw [he] at hs
      injection hs with hs
      rw [← hs]
      exact takeStr_length_le _ _

/-- Witness for C8 (amended) at a concrete whitespace-padded body. -/
theorem sanitizeFormData_spec_witness :
    pC8w.timestamp = "T8w" ∧
    pC8w.name = takeStr 100 (trimStr "  Jane Roe  ") ∧
    pC8w.turnstileToken = trimStr " tok8 " ∧
    pC8w.name.length ≤ 100 := by
  obtain ⟨ht, hn, _, _, _, _, _, _, htok, hbn, _⟩ :=
    sanitizeFormData_spec "T8w" cBodyC8w pC8w (by decide)
  exact ⟨ht, hn "  Jane Roe  " rfl, htok " tok8 " rfl, hbn⟩

end FormPipeline
